import Mathlib

/-!
Shallow embedding of the Ribasim command-line launcher (Rust sources
`build/cli/src/main.rs`, `build/cli_wrapper/src/main.rs`,
`compile/cli_wrapper/src/main.rs`) and proofs about its launch protocol:
library-path resolution, environment precedence, exit-code translation and
the error surface.

Modelling conventions:
* The process environment is restricted to the three variables the programs
  ever read or write: `PATH`, `LD_LIBRARY_PATH`, `JULIA_NUM_THREADS`.
* Filesystem-, loader- and engine-behaviour is an oracle (`World`):
  which paths are files, which library loads succeed, which symbols
  resolve, and what the foreign calls return.
* Rust `unwrap()` / `unimplemented!` terminate the process by panicking;
  this is the `ProcOutcome.panicked` outcome, distinct from a normal
  `ProcOutcome.exit` code (a Rust panic does not produce exit status 1).
* `exit_code as u8` (i32 → u8 truncation) is `Int.emod` by 256, whose
  result lies in [0, 256) — the two's-complement low byte.
* `CString::new` fails exactly on strings with an interior NUL character.
* Side effects (stderr prints, library load, symbol lookup, foreign calls)
  are recorded as an event trace.
-/

namespace Ribasim

/-- The process environment, restricted to the variables the launcher
reads or writes (`PATH`, `LD_LIBRARY_PATH`, `JULIA_NUM_THREADS`);
`none` means the variable is unset, in which case Rust `env::var` is `Err`
and `unwrap_or_default()` yields the empty string. -/
structure Env where
  path : Option String
  ldLibraryPath : Option String
  juliaNumThreads : Option String
deriving DecidableEq, Repr

/-- The clap-parsed command line of `build/cli/src/main.rs` (`struct Cli`):
a required positional TOML path and an optional `--threads` value. -/
structure Cli where
  toml_path : String
  threads : Option String
deriving DecidableEq, Repr

/-- How the launcher process terminates: a normal exit with a code
(`ExitCode`), or a Rust panic (`unwrap()` on `Err`/`None`,
`unimplemented!`). -/
inductive ProcOutcome where
  | exit (code : Nat)
  | panicked (msg : String)
deriving DecidableEq, Repr

/-- Whether the outcome is a panic. -/
def ProcOutcome.isPanicked : ProcOutcome → Bool
  | .panicked _ => true
  | .exit _ => false

/-- Observable side effects of a launch, in program order. -/
inductive Event where
  | printErr (msg : String)
  | loadLibrary (path : String)
  | getSymbol (name : String)
  | callInit (bindir : String) (imagePath : String)
  | callExecute (configPath : String)
deriving DecidableEq, Repr

/-- The oracle describing the host the launcher runs on: the compile-time
platform tag `std::env::consts::OS`, the executable's directory, the
initial environment, the filesystem (`Path::is_file`), the physical CPU
count (`num_cpus::get_physical`), whether `Library::new` succeeds at a
path, whether `Library::get` resolves a symbol name, and the i32 values
the two foreign entry points return. -/
structure World where
  os : String
  exeDir : String
  env : Env
  isFile : String → Bool
  physicalCpuCount : Nat
  loadOk : String → Bool
  hasSymbol : String → Bool
  initReturn : Int
  executeReturn : Int

/-- Joining a directory and a relative path (Rust `Path::join`). -/
def pathJoin (dir p : String) : String := dir ++ "/" ++ p

/-- Whether a string contains an interior NUL character. -/
def containsNul (s : String) : Bool := s.data.any (fun c => c == Char.ofNat 0)

/-- Conversion to a C string (Rust `CString::new`): succeeds exactly when
the string has no interior NUL byte (`NulError` otherwise, which the
launcher `unwrap()`s). -/
def cstringNew (s : String) : Option String :=
  if containsNul s then none else some s

/-- Debug (`{:?}`) rendering of a `PathBuf`: the path in double quotes. -/
def pathDebug (p : String) : String := "\"" ++ p ++ "\""

/-- The diagnostic `eprintln!("File not found {:?}", cli.toml_path)`
prints (`build/cli/src/main.rs` line 43). -/
def fileNotFoundMsg (p : String) : String := "File not found " ++ pathDebug p

/-- Lines 27–36 of `build/cli/src/main.rs`: on windows, set `PATH` to the
`bin` directory next to the executable, then `;`, then the prior `PATH`
value (empty string when unset); on other platforms do nothing. -/
def setWindowsPathEnv (os exeDir : String) (env : Env) : Env :=
  if os = "windows" then
    { env with path := some (pathJoin exeDir "bin" ++ ";" ++ env.path.getD "") }
  else env

/-- Lines 49–54 of `build/cli/src/main.rs`: set `JULIA_NUM_THREADS` to the
explicit `--threads` value when given; otherwise, when the variable is
unset, to the physical CPU count; otherwise leave the environment alone. -/
def configureThreads (threads : Option String) (physicalCpuCount : Nat)
    (env : Env) : Env :=
  match threads with
  | some t => { env with juliaNumThreads := some t }
  | none =>
    if env.juliaNumThreads.isNone then
      { env with juliaNumThreads := some (toString physicalCpuCount) }
    else env

/-- Lines 56–61 of `build/cli/src/main.rs`: the platform-tag match giving
the shared-library path relative to the executable directory; `none`
stands for the `unimplemented!("Your OS is not supported yet.")` arm. -/
def sharedLibPath (os : String) : Option String :=
  if os = "windows" then some "bin/libribasim.dll"
  else if os = "linux" then some "lib/libribasim.so"
  else if os = "macos" then some "lib/libribasim.dylib"
  else none

/-- The panic message of `unimplemented!("Your OS is not supported yet.")`. -/
def unsupportedOsPanicMsg : String :=
  "not implemented: Your OS is not supported yet."

/-- Result of one launch: how the process terminated, the final
environment, and the trace of side effects. -/
structure RunResult where
  outcome : ProcOutcome
  env : Env
  events : List Event
deriving DecidableEq, Repr

/-- The whole of `fn main` of `build/cli/src/main.rs` (argument parsing,
i.e. clap, is taken as the already-parsed `Cli`): windows `PATH` setup;
file-existence check with diagnostic and `ExitCode::FAILURE`;
`JULIA_NUM_THREADS` precedence; platform library-path match
(`unimplemented!` on unknown tags); `Library::new(..).unwrap()`;
resolution of `jl_init_with_image_file`; `CString` conversions of the
executable directory and the relative image path; the init call whose
return value is discarded; resolution of `execute`; `CString` conversion
of the TOML path; the `execute` call; and `ExitCode::from(exit_code as u8)`. -/
def run (w : World) (cli : Cli) : RunResult :=
  let env1 := setWindowsPathEnv w.os w.exeDir w.env
  if !(w.isFile cli.toml_path) then
    { outcome := .exit 1, env := env1,
      events := [.printErr (fileNotFoundMsg cli.toml_path)] }
  else
    let env2 := configureThreads cli.threads w.physicalCpuCount env1
    match sharedLibPath w.os with
    | none =>
      { outcome := .panicked unsupportedOsPanicMsg, env := env2, events := [] }
    | some libPath =>
      let fullLibPath := pathJoin w.exeDir libPath
      if !(w.loadOk fullLibPath) then
        { outcome := .panicked "library load failed", env := env2,
          events := [.loadLibrary fullLibPath] }
      else if !(w.hasSymbol "jl_init_with_image_file") then
        { outcome := .panicked "symbol not found: jl_init_with_image_file",
          env := env2,
          events := [.loadLibrary fullLibPath,
                     .getSymbol "jl_init_with_image_file"] }
      else
        match cstringNew w.exeDir, cstringNew libPath with
        | none, _ =>
          { outcome := .panicked "CString NulError", env := env2,
            events := [.loadLibrary fullLibPath,
                       .getSymbol "jl_init_with_image_file"] }
        | some _, none =>
          { outcome := .panicked "CString NulError", env := env2,
            events := [.loadLibrary fullLibPath,
                       .getSymbol "jl_init_with_image_file"] }
        | some bindir, some image =>
          if !(w.hasSymbol "execute") then
            { outcome := .panicked "symbol not found: execute", env := env2,
              events := [.loadLibrary fullLibPath,
                         .getSymbol "jl_init_with_image_file",
                         .callInit bindir image] }
          else
            match cstringNew cli.toml_path with
            | none =>
              { outcome := .panicked "CString NulError", env := env2,
                events := [.loadLibrary fullLibPath,
                           .getSymbol "jl_init_with_image_file",
                           .callInit bindir image,
                           .getSymbol "execute"] }
            | some tomlC =>
              { outcome := .exit ((w.executeReturn % 256).toNat), env := env2,
                events := [.loadLibrary fullLibPath,
                           .getSymbol "jl_init_with_image_file",
                           .callInit bindir image,
                           .getSymbol "execute",
                           .callExecute tomlC] }

/-- Lines 9–26 of `compile/cli_wrapper/src/main.rs`: on windows set `PATH`
to the `bin` directory, `;`, then the prior value; on every other platform
set `LD_LIBRARY_PATH` to the `bin` directory, `:`, then the prior value. -/
def wrapperConfigureSearchPath (os binPath : String) (env : Env) : Env :=
  if os = "windows" then
    { env with path := some (binPath ++ ";" ++ env.path.getD "") }
  else
    { env with ldLibraryPath := some (binPath ++ ":" ++ env.ldLibraryPath.getD "") }

/-- After resolving the configuration path: either proceed into the launch
with the chosen path and the used-interactive-picker flag, or terminate
with an exit code. -/
inductive PickDecision where
  | proceed (configPath : String) (usedInteractivePicker : Bool)
  | exitWith (code : Nat)
deriving DecidableEq, Repr

/-- What the Interactive Input Resolver did: whether the file-choose
dialog was presented and with which extension filters, what it printed,
and the decision taken. -/
structure PickOutcome where
  dialogShown : Bool
  dialogFilters : List String
  printed : List String
  decision : PickDecision
deriving DecidableEq, Repr

/-- Modelled from the spec: the Interactive Input Resolver (spec §4.3).
The file-picker variant of the launcher is not among the provided source
files — `build/cli/src/main.rs` only declares the clap `Cli` struct with a
required TOML-path positional — so this follows the spec's words: with at
least one argument the first is taken as the configuration path; with zero
arguments a file-choose dialog restricted to a single named file-extension
filter (the TOML extension) is presented; if the user cancels, the process
fails fatally with exit code 1 and prints nothing; if a path is chosen,
proceed with `usedInteractivePicker = true`. -/
def resolveConfigPathModelled (args : List String)
    (pickerChoice : Option String) : PickOutcome :=
  match args with
  | a :: _ =>
    { dialogShown := false, dialogFilters := [], printed := [],
      decision := .proceed a false }
  | [] =>
    match pickerChoice with
    | some p =>
      { dialogShown := true, dialogFilters := ["toml"], printed := [],
        decision := .proceed p true }
    | none =>
      { dialogShown := true, dialogFilters := ["toml"], printed := [],
        decision := .exitWith 1 }

/-! Concrete inputs used as witnesses and counterexamples. -/

/-- An environment with all three variables unset. -/
def envEmpty : Env := { path := none, ldLibraryPath := none, juliaNumThreads := none }

/-- A parsed command line with no explicit thread count. -/
def cliPlain : Cli := { toml_path := "model.toml", threads := none }

/-- A parsed command line with an explicit `--threads 5`. -/
def cliThreads5 : Cli := { toml_path := "model.toml", threads := some "5" }

/-- A parsed command line whose path has an interior NUL character. -/
def cliNul : Cli := { toml_path := "model\x00.toml", threads := none }

/-- A linux host on which everything succeeds and `execute` returns 260. -/
def wLinuxOk : World :=
  { os := "linux", exeDir := "/opt/ribasim", env := envEmpty,
    isFile := fun p => p == "model.toml", physicalCpuCount := 4,
    loadOk := fun _ => true, hasSymbol := fun _ => true,
    initReturn := 0, executeReturn := 260 }

/-- Same host, but `execute` returns 0. -/
def wLinuxZero : World := { wLinuxOk with executeReturn := 0 }

/-- Same host, with `JULIA_NUM_THREADS` already set to `7`. -/
def wPreset : World :=
  { wLinuxOk with env := { envEmpty with juliaNumThreads := some "7" } }

/-- Same host, but loading the shared library fails. -/
def wLoadFail : World := { wLinuxOk with loadOk := fun _ => false }

/-- Same host, but the `execute` symbol does not resolve. -/
def wNoExecuteSym : World :=
  { wLinuxOk with hasSymbol := fun s => s == "jl_init_with_image_file" }

/-- Same host, but with an unrecognized platform tag. -/
def wUnsupportedOs : World := { wLinuxOk with os := "freebsd" }

/-- Same host, but the configuration file does not exist. -/
def wNoFile : World := { wLinuxOk with isFile := fun _ => false }

/-- Same host, but every path is a file (so a NUL-bearing path passes the
existence check and reaches the `CString` conversion). -/
def wAnyFile : World := { wLinuxOk with isFile := fun _ => true }

/-! Helper lemmas about the environment steps and the main launch path. -/

theorem setWindowsPathEnv_juliaNumThreads (os exeDir : String) (env : Env) :
    (setWindowsPathEnv os exeDir env).juliaNumThreads = env.juliaNumThreads := by
  unfold setWindowsPathEnv
  split <;> rfl

theorem run_of_not_file (w : World) (cli : Cli)
    (hf : w.isFile cli.toml_path = false) :
    run w cli =
      { outcome := .exit 1, env := setWindowsPathEnv w.os w.exeDir w.env,
        events := [.printErr (fileNotFoundMsg cli.toml_path)] } := by
  unfold run
  rw [hf]
  rfl

theorem run_env_of_file (w : World) (cli : Cli)
    (hf : w.isFile cli.toml_path = true) :
    (run w cli).env =
      configureThreads cli.threads w.physicalCpuCount
        (setWindowsPathEnv w.os w.exeDir w.env) := by
  unfold run
  rw [hf]
  simp only [Bool.not_true, Bool.false_eq_true, if_false]
  split
  · rfl
  · split
    · rfl
    · split
      · rfl
      · split <;> first | rfl | (split <;> first | rfl | (split <;> rfl))

theorem run_success (w : World) (cli : Cli) (p : String)
    (hf : w.isFile cli.toml_path = true)
    (hp : sharedLibPath w.os = some p)
    (hload : w.loadOk (pathJoin w.exeDir p) = true)
    (hsym1 : w.hasSymbol "jl_init_with_image_file" = true)
    (hsym2 : w.hasSymbol "execute" = true)
    (hnul1 : containsNul w.exeDir = false)
    (hnul2 : containsNul p = false)
    (hnul3 : containsNul cli.toml_path = false) :
    run w cli =
      { outcome := .exit ((w.executeReturn % 256).toNat),
        env := configureThreads cli.threads w.physicalCpuCount
          (setWindowsPathEnv w.os w.exeDir w.env),
        events := [.loadLibrary (pathJoin w.exeDir p),
                   .getSymbol "jl_init_with_image_file",
                   .callInit w.exeDir p,
                   .getSymbol "execute",
                   .callExecute cli.toml_path] } := by
  unfold run
  rw [hf, hp]
  simp only [Bool.not_true, Bool.false_eq_true, if_false, hload, hsym1, hsym2,
    cstringNew, hnul1, hnul2, hnul3, Bool.not_false, if_true,
    Bool.false_eq_true]

example : (run wLoadFail cliPlain).outcome = .panicked "library load failed" := by
  decide

example : (run wLinuxOk cliPlain).outcome = .exit 4 := by decide

example : (run wNoFile cliPlain).events =
    [.printErr "File not found \"model.toml\""] := by decide

/-- Claim C1: for every launch that passes the configuration-file check,
`JULIA_NUM_THREADS` follows the three-case precedence: an explicit
`--threads V` sets it to `V` regardless of the prior environment; absent
that, a pre-set value is left unchanged; absent both, it is set to the
host's physical CPU core count. -/
theorem claim_c1_thread_precedence (w : World) (cli : Cli)
    (hf : w.isFile cli.toml_path = true) :
    (∀ v, cli.threads = some v →
      (run w cli).env.juliaNumThreads = some v) ∧
    (cli.threads = none → w.env.juliaNumThreads ≠ none →
      (run w cli).env.juliaNumThreads = w.env.juliaNumThreads) ∧
    (cli.threads = none → w.env.juliaNumThreads = none →
      (run w cli).env.juliaNumThreads =
        some (toString w.physicalCpuCount)) := by
  have he := run_env_of_file w cli hf
  have hj := setWindowsPathEnv_juliaNumThreads w.os w.exeDir w.env
  refine ⟨?_, ?_, ?_⟩
  · intro v hv
    rw [he, hv]
    rfl
  · intro h0 hset
    rw [he, h0]
    unfold configureThreads
    rw [if_neg]
    · exact hj
    · simp only [Option.isNone_iff_eq_none, hj]
      exact fun h => hset h
  · intro h0 hun
    rw [he, h0]
    unfold configureThreads
    rw [if_pos]
    simp only [Option.isNone_iff_eq_none, hj, hun]

theorem claim_c1_thread_precedence_witness :
    (run wLinuxOk cliThreads5).env.juliaNumThreads = some "5" ∧
    (run wPreset cliPlain).env.juliaNumThreads = some "7" ∧
    (run wLinuxOk cliPlain).env.juliaNumThreads = some "4" := by
  refine ⟨?_, ?_, ?_⟩
  · exact (claim_c1_thread_precedence wLinuxOk cliThreads5 (by decide)).1 "5" rfl
  · have h := (claim_c1_thread_precedence wPreset cliPlain (by decide)).2.1 rfl
      (by decide)
    simpa using h
  · have h := (claim_c1_thread_precedence wLinuxOk cliPlain (by decide)).2.2 rfl
      (by decide)
    simpa using h

/-- Claim C10: when the configuration-file existence check fails, the
launcher exits with code 1 and `JULIA_NUM_THREADS` retains exactly its
prior value, set or unset, because the check precedes thread-count
configuration. -/
theorem claim_c10_threads_untouched_on_missing_file (w : World) (cli : Cli)
    (hf : w.isFile cli.toml_path = false) :
    (run w cli).outcome = .exit 1 ∧
    (run w cli).env.juliaNumThreads = w.env.juliaNumThreads := by
  rw [run_of_not_file w cli hf]
  exact ⟨rfl, setWindowsPathEnv_juliaNumThreads w.os w.exeDir w.env⟩

theorem claim_c10_threads_untouched_on_missing_file_witness :
    (run wNoFile cliPlain).outcome = .exit 1 ∧
    (run wNoFile cliPlain).env.juliaNumThreads = none :=
  claim_c10_threads_untouched_on_missing_file wNoFile cliPlain (by decide)

/-- Claim C8: invoking the launcher with an explicit configuration path
that does not exist exits with code 1 after printing a single diagnostic
that names the missing path, and the engine library is never loaded. -/
theorem claim_c8_missing_path_diagnostic (w : World) (cli : Cli)
    (hf : w.isFile cli.toml_path = false) :
    (run w cli).outcome = .exit 1 ∧
    (run w cli).events = [.printErr (fileNotFoundMsg cli.toml_path)] ∧
    (∃ pre post, fileNotFoundMsg cli.toml_path =
      pre ++ cli.toml_path ++ post) ∧
    (∀ p, Event.loadLibrary p ∉ (run w cli).events) := by
  rw [run_of_not_file w cli hf]
  refine ⟨rfl, rfl, ⟨"File not found \"", "\"", ?_⟩, ?_⟩
  · apply String.ext
    simp [fileNotFoundMsg, pathDebug]
  · intro p hp
    simp only [List.mem_singleton] at hp
    exact Event.noConfusion hp

theorem claim_c8_missing_path_diagnostic_witness :
    (run wNoFile cliPlain).outcome = .exit 1 ∧
    (run wNoFile cliPlain).events =
      [.printErr (fileNotFoundMsg "model.toml")] ∧
    (∃ pre post, fileNotFoundMsg "model.toml" =
      pre ++ "model.toml" ++ post) ∧
    (∀ p, Event.loadLibrary p ∉ (run wNoFile cliPlain).events) :=
  claim_c8_missing_path_diagnostic wNoFile cliPlain (by decide)

/-- Claim C2: on the successful launch path, the process exit code is the
engine's returned status reduced modulo 256 — truncation to the low byte
(wrapping, not clamping), as performed by `ExitCode::from(exit_code as u8)`. -/
theorem claim_c2_exit_code_mod256 (w : World) (cli : Cli) (p : String)
    (hf : w.isFile cli.toml_path = true)
    (hp : sharedLibPath w.os = some p)
    (hload : w.loadOk (pathJoin w.exeDir p) = true)
    (hsym1 : w.hasSymbol "jl_init_with_image_file" = true)
    (hsym2 : w.hasSymbol "execute" = true)
    (hnul1 : containsNul w.exeDir = false)
    (hnul2 : containsNul p = false)
    (hnul3 : containsNul cli.toml_path = false) :
    (run w cli).outcome = .exit ((w.executeReturn % 256).toNat) := by
  rw [run_success w cli p hf hp hload hsym1 hsym2 hnul1 hnul2 hnul3]

theorem claim_c2_exit_code_mod256_witness :
    (run wLinuxOk cliPlain).outcome = .exit 4 ∧
    (run wLinuxZero cliPlain).outcome = .exit 0 := by
  constructor
  · have h := claim_c2_exit_code_mod256 wLinuxOk cliPlain "lib/libribasim.so"
      (by decide) (by decide) (by decide) (by decide) (by decide) (by decide)
      (by decide) (by decide)
    simpa using h
  · have h := claim_c2_exit_code_mod256 wLinuxZero cliPlain "lib/libribasim.so"
      (by decide) (by decide) (by decide) (by decide) (by decide) (by decide)
      (by decide) (by decide)
    simpa using h

/-- Claim C5: the platform match resolves windows to the flat
`bin/libribasim.dll` layout and linux and macos to the sibling `lib`
directory (`lib/libribasim.so`, `lib/libribasim.dylib`), and fails
(no path convention) for every tag outside the supported set. -/
theorem claim_c5_resolver_conventions (os : String) :
    sharedLibPath "windows" = some "bin/libribasim.dll" ∧
    sharedLibPath "linux" = some "lib/libribasim.so" ∧
    sharedLibPath "macos" = some "lib/libribasim.dylib" ∧
    (os ≠ "windows" → os ≠ "linux" → os ≠ "macos" →
      sharedLibPath os = none) := by
  refine ⟨by decide, by decide, by decide, ?_⟩
  intro h1 h2 h3
  unfold sharedLibPath
  rw [if_neg h1, if_neg h2, if_neg h3]

theorem claim_c5_resolver_conventions_witness :
    sharedLibPath "windows" = some "bin/libribasim.dll" ∧
    sharedLibPath "linux" = some "lib/libribasim.so" ∧
    sharedLibPath "macos" = some "lib/libribasim.dylib" ∧
    sharedLibPath "solaris" = none := by
  have h := claim_c5_resolver_conventions "solaris"
  exact ⟨h.1, h.2.1, h.2.2.1,
    h.2.2.2 (by decide) (by decide) (by decide)⟩

/-- Claim C7: where a library search-path variable is set, its new value
is the auxiliary binary directory, then the platform's path separator,
then the entire prior value (the empty string when unset): the launcher's
windows `PATH` step, and the wrapper's windows `PATH` and
non-windows `LD_LIBRARY_PATH` steps. -/
theorem claim_c7_search_path_prepend (os exeDir binPath : String)
    (env : Env) :
    (os = "windows" →
      (setWindowsPathEnv os exeDir env).path =
        some (pathJoin exeDir "bin" ++ ";" ++ env.path.getD "")) ∧
    (os = "windows" →
      (wrapperConfigureSearchPath os binPath env).path =
        some (binPath ++ ";" ++ env.path.getD "")) ∧
    (os ≠ "windows" →
      (wrapperConfigureSearchPath os binPath env).ldLibraryPath =
        some (binPath ++ ":" ++ env.ldLibraryPath.getD "")) := by
  refine ⟨fun h => ?_, fun h => ?_, fun h => ?_⟩ <;>
    simp [setWindowsPathEnv, wrapperConfigureSearchPath, h]

theorem claim_c7_search_path_prepend_witness :
    (setWindowsPathEnv "windows" "C:/ribasim" envEmpty).path =
      some ("C:/ribasim/bin" ++ ";" ++ "") ∧
    (wrapperConfigureSearchPath "windows" "C:/ribasim/bin"
      { envEmpty with path := some "C:/old" }).path =
      some ("C:/ribasim/bin" ++ ";" ++ "C:/old") ∧
    (wrapperConfigureSearchPath "linux" "/opt/ribasim/bin"
      { envEmpty with ldLibraryPath := some "/usr/lib" }).ldLibraryPath =
      some ("/opt/ribasim/bin" ++ ":" ++ "/usr/lib") := by
  refine ⟨?_, ?_, ?_⟩
  · exact (claim_c7_search_path_prepend "windows" "C:/ribasim" "" envEmpty).1
      rfl
  · exact (claim_c7_search_path_prepend "windows" "" "C:/ribasim/bin"
      { envEmpty with path := some "C:/old" }).2.1 rfl
  · exact (claim_c7_search_path_prepend "linux" "" "/opt/ribasim/bin"
      { envEmpty with ldLibraryPath := some "/usr/lib" }).2.2 (by decide)

/-- Claim C9: on the launch path that reaches the engine, the
initialization entry point is called exactly once, before `execute`, with
the launcher's own directory and the relative image path as arguments, and
its returned status has no effect on anything the launcher does: the whole
launch result is independent of the value `init` returns. -/
theorem claim_c9_init_once_before_execute (w : World) (cli : Cli)
    (p : String)
    (hf : w.isFile cli.toml_path = true)
    (hp : sharedLibPath w.os = some p)
    (hload : w.loadOk (pathJoin w.exeDir p) = true)
    (hsym1 : w.hasSymbol "jl_init_with_image_file" = true)
    (hsym2 : w.hasSymbol "execute" = true)
    (hnul1 : containsNul w.exeDir = false)
    (hnul2 : containsNul p = false)
    (hnul3 : containsNul cli.toml_path = false) :
    (run w cli).events =
      [.loadLibrary (pathJoin w.exeDir p),
       .getSymbol "jl_init_with_image_file",
       .callInit w.exeDir p,
       .getSymbol "execute",
       .callExecute cli.toml_path] ∧
    ((run w cli).events.countP
      (fun e => match e with | .callInit _ _ => true | _ => false)) = 1 ∧
    (∀ r : Int, run { w with initReturn := r } cli = run w cli) := by
  have h1 := run_success w cli p hf hp hload hsym1 hsym2 hnul1 hnul2 hnul3
  refine ⟨?_, ?_, fun r => ?_⟩
  · rw [h1]
  · rw [h1]
    rfl
  · have h2 := run_success { w with initReturn := r } cli p hf hp hload hsym1
      hsym2 hnul1 hnul2 hnul3
    exact h2.trans h1.symm

theorem claim_c9_init_once_before_execute_witness :
    (run wLinuxOk cliPlain).events =
      [.loadLibrary "/opt/ribasim/lib/libribasim.so",
       .getSymbol "jl_init_with_image_file",
       .callInit "/opt/ribasim" "lib/libribasim.so",
       .getSymbol "execute",
       .callExecute "model.toml"] ∧
    ((run wLinuxOk cliPlain).events.countP
      (fun e => match e with | .callInit _ _ => true | _ => false)) = 1 ∧
    (∀ r : Int, run { wLinuxOk with initReturn := r } cliPlain =
      run wLinuxOk cliPlain) := by
  have h := claim_c9_init_once_before_execute wLinuxOk cliPlain
    "lib/libribasim.so" (by decide) (by decide) (by decide) (by decide)
    (by decide) (by decide) (by decide) (by decide)
  simpa using h

/-- Claim C3 counterexample: with an existing configuration file but a
failing library load, the launcher does not terminate with the fixed
failure exit code 1 — it panics (an `unwrap()` on the load error), so the
internal fatal conditions do not all map to exit code 1 as claimed. -/
theorem claim_c3_counterexample :
    (run wLoadFail cliPlain).outcome.isPanicked = true ∧
    (run wLoadFail cliPlain).outcome ≠ .exit 1 := by decide

/-- Claim C3 as amended: only the nonexistent-config-path condition
terminates with exit code 1; library load failure, execute-symbol
resolution failure, and path-encoding (interior NUL) failure each make the
launcher panic via `unwrap()` (Rust's abnormal panic termination, not the
fixed failure exit code 1). -/
theorem claim_c3_amended_fatal_surface (w : World) (cli : Cli)
    (p : String) :
    (w.isFile cli.toml_path = false → (run w cli).outcome = .exit 1) ∧
    (w.isFile cli.toml_path = true → sharedLibPath w.os = some p →
      w.loadOk (pathJoin w.exeDir p) = false →
      (run w cli).outcome.isPanicked = true) ∧
    (w.isFile cli.toml_path = true → sharedLibPath w.os = some p →
      w.loadOk (pathJoin w.exeDir p) = true →
      w.hasSymbol "execute" = false →
      (run w cli).outcome.isPanicked = true) ∧
    (w.isFile cli.toml_path = true → sharedLibPath w.os = some p →
      w.loadOk (pathJoin w.exeDir p) = true →
      containsNul cli.toml_path = true →
      (run w cli).outcome.isPanicked = true) := by
  refine ⟨?_, ?_, ?_, ?_⟩
  · intro hf
    rw [run_of_not_file w cli hf]
  · intro hf hp hload
    simp only [run, hf, hp, hload, Bool.not_true, Bool.not_false, if_true,
      if_false, Bool.false_eq_true]
    rfl
  · intro hf hp hload hsym
    simp only [run, hf, hp, hload, Bool.not_true, Bool.not_false, if_true,
      if_false, Bool.false_eq_true]
    split
    · rfl
    · split
      · rfl
      · rfl
      · rw [hsym]
        rfl
  · intro hf hp hload hnul
    simp only [run, hf, hp, hload, Bool.not_true, Bool.not_false, if_true,
      if_false, Bool.false_eq_true]
    split
    · rfl
    · split
      · rfl
      · rfl
      · split
        · rfl
        · simp only [cstringNew, hnul, if_true]
          rfl

theorem claim_c3_amended_fatal_surface_witness :
    (run wNoFile cliPlain).outcome = .exit 1 ∧
    (run wLoadFail cliPlain).outcome.isPanicked = true ∧
    (run wNoExecuteSym cliPlain).outcome.isPanicked = true ∧
    (run wAnyFile cliNul).outcome.isPanicked = true := by
  refine ⟨?_, ?_, ?_, ?_⟩
  · exact (claim_c3_amended_fatal_surface wNoFile cliPlain
      "lib/libribasim.so").1 (by decide)
  · exact (claim_c3_amended_fatal_surface wLoadFail cliPlain
      "lib/libribasim.so").2.1 (by decide) (by decide) (by decide)
  · exact (claim_c3_amended_fatal_surface wNoExecuteSym cliPlain
      "lib/libribasim.so").2.2.1 (by decide) (by decide) (by decide)
      (by decide)
  · exact (claim_c3_amended_fatal_surface wAnyFile cliNul
      "lib/libribasim.so").2.2.2 (by decide) (by decide) (by decide)
      (by decide)

/-- Claim C6 counterexample: on an unrecognized platform tag (here
`freebsd`) with an existing configuration file, the launcher terminates by
the `unimplemented!` runtime panic, not by a fatal error mapped to the
fixed failure exit code 1 — refuting the claim that it avoids a runtime
panic. -/
theorem claim_c6_counterexample :
    (run wUnsupportedOs cliPlain).outcome =
      .panicked unsupportedOsPanicMsg ∧
    (run wUnsupportedOs cliPlain).outcome ≠ .exit 1 := by decide

/-- Claim C6 as amended: for every platform tag outside
{windows, linux, macos}, a launch that passes the configuration-file check
terminates with the explicit runtime panic of
`unimplemented!("Your OS is not supported yet.")` — an unsupported-variant
panic with a dedicated message, not a fatal error mapped to the fixed
failure exit code 1. -/
theorem claim_c6_amended_unsupported_panics (w : World) (cli : Cli)
    (h1 : w.os ≠ "windows") (h2 : w.os ≠ "linux") (h3 : w.os ≠ "macos")
    (hf : w.isFile cli.toml_path = true) :
    (run w cli).outcome = .panicked unsupportedOsPanicMsg ∧
    (run w cli).outcome ≠ .exit 1 := by
  have hp : sharedLibPath w.os = none := by
    unfold sharedLibPath
    rw [if_neg h1, if_neg h2, if_neg h3]
  constructor
  · unfold run
    rw [hf, hp]
    rfl
  · unfold run
    rw [hf, hp]
    intro h
    exact ProcOutcome.noConfusion h

theorem claim_c6_amended_unsupported_panics_witness :
    (run wUnsupportedOs cliPlain).outcome =
      .panicked unsupportedOsPanicMsg ∧
    (run wUnsupportedOs cliPlain).outcome ≠ .exit 1 :=
  claim_c6_amended_unsupported_panics wUnsupportedOs cliPlain (by decide)
    (by decide) (by decide) (by decide)

/-- Claim C4: invoked with zero arguments, the resolver presents the
file-choose dialog restricted to a single file-extension filter instead of
failing on the missing positional argument; if the user cancels, the
process exits with code 1 and prints no diagnostic text. -/
theorem claim_c4_zero_args_picker (choice : Option String) :
    (resolveConfigPathModelled [] choice).dialogShown = true ∧
    (resolveConfigPathModelled [] choice).dialogFilters.length = 1 ∧
    (choice = none →
      (resolveConfigPathModelled [] choice).decision = .exitWith 1 ∧
      (resolveConfigPathModelled [] choice).printed = []) := by
  cases choice <;> simp [resolveConfigPathModelled]

theorem claim_c4_zero_args_picker_witness :
    (resolveConfigPathModelled [] none).decision = .exitWith 1 ∧
    (resolveConfigPathModelled [] none).printed = [] :=
  (claim_c4_zero_args_picker none).2.2 rfl

end Ribasim
